import Mathlib

/-!
Verification of the THM registration backend (`src/index.js`): a shallow
embedding of the registration intake pipeline — validation, duplicate-email
check, ticket-id generation, ImgBB image upload, MongoDB persistence,
Google-Sheets mirroring — together with the lookup endpoint, and proofs of
the specified properties.
-/

namespace THM

/-- A JavaScript value as it can appear in `req.body.agreeToTerms`:
absent, a boolean, or a string. -/
inductive JSVal where
  | undef
  | bool (b : Bool)
  | str (s : String)
deriving DecidableEq, Repr

/-- Models JavaScript `String.prototype.trim`: drop leading and trailing
whitespace. -/
def jsTrim (s : String) : String :=
  ⟨((s.data.dropWhile Char.isWhitespace).reverse.dropWhile Char.isWhitespace).reverse⟩

/-- Models JavaScript `String.prototype.toLowerCase` (character-wise). -/
def jsToLower (s : String) : String :=
  ⟨s.data.map Char.toLower⟩

/-- JavaScript truthiness test for a possibly-absent string field:
`!x` holds when the field is absent or the empty string. -/
def falsyStr : Option String → Bool
  | none => true
  | some s => s == ""

/-- The character class `[^\s@]` of the email regex. -/
def emailChar (c : Char) : Bool :=
  !c.isWhitespace && c != '@'

/-- Models `/^[^\s@]+@[^\s@]+\.[^\s@]+$/.test s` (the validator's email
regex): a non-empty local part, one `@`, and a domain containing a dot at
an interior position, with no whitespace anywhere. -/
def emailRegexTest (s : String) : Bool :=
  match s.data.dropWhile (fun c => c != '@') with
  | '@' :: dom =>
      s.data.takeWhile (fun c => c != '@') != [] &&
      (s.data.takeWhile (fun c => c != '@')).all emailChar &&
      dom.all emailChar &&
      ((dom.drop 1).dropLast.contains '.')
  | _ => false

/-- Models `/^\+91[6-9]\d{9}$/.test s` (the validator's phone regex). -/
def phoneRegexTest (s : String) : Bool :=
  match s.data with
  | '+' :: '9' :: '1' :: d :: rest =>
      (d == '6' || d == '7' || d == '8' || d == '9') &&
      rest.length == 9 && rest.all Char.isDigit
  | _ => false

/-- The fields of `req.body` destructured by the validator and the
registration handler.  Each multipart text field may be absent. -/
structure Form where
  fullName : Option String
  email : Option String
  phone : Option String
  college : Option String
  branch : Option String
  year : Option String
  gender : Option String
  accommodation : Option String
  foodPreference : Option String
  ieeeStatus : Option String
  ieeeMembershipId : Option String
  ticketType : Option String
  agreeToTerms : JSVal
deriving DecidableEq, Repr

/-- The uploaded file (`req.file`), already admitted by multer's size and
MIME-type filter; only its buffer matters to the pipeline. -/
structure File where
  buffer : String
deriving DecidableEq, Repr

/- Per-rule failure conditions, each transcribing one `if` of
`validateRegistration` in `src/index.js` (lines 147–247). -/

def fullNameFails (f : Form) : Bool :=
  falsyStr f.fullName || decide ((jsTrim (f.fullName.getD "")).length < 2)

def emailFails (f : Form) : Bool :=
  falsyStr f.email || !emailRegexTest (f.email.getD "")

def phoneFails (f : Form) : Bool :=
  falsyStr f.phone || !phoneRegexTest (f.phone.getD "")

def collegeFails (f : Form) : Bool :=
  falsyStr f.college || decide ((jsTrim (f.college.getD "")).length < 2)

def branchFails (f : Form) : Bool :=
  falsyStr f.branch || decide ((jsTrim (f.branch.getD "")).length < 2)

def yearFails (f : Form) : Bool :=
  falsyStr f.year || !(decide (f.year.getD "" ∈ (["1", "2", "3", "4"] : List String)))

def genderFails (f : Form) : Bool :=
  falsyStr f.gender ||
    !(decide (jsToLower (f.gender.getD "") ∈ (["male", "female", "other"] : List String)))

def accommodationFails (f : Form) : Bool :=
  falsyStr f.accommodation ||
    !(decide (f.accommodation.getD "" ∈ (["yes", "no"] : List String)))

def foodPreferenceFails (f : Form) : Bool :=
  falsyStr f.foodPreference ||
    !(decide (f.foodPreference.getD "" ∈ (["veg", "non-veg"] : List String)))

def ieeeStatusFails (f : Form) : Bool :=
  falsyStr f.ieeeStatus ||
    !(decide (f.ieeeStatus.getD "" ∈ (["member", "non-member"] : List String)))

def ieeeMembershipIdFails (f : Form) : Bool :=
  f.ieeeStatus == some "member" &&
    (falsyStr f.ieeeMembershipId ||
      decide ((jsTrim (f.ieeeMembershipId.getD "")).length < 5))

def ticketTypeFails (f : Form) : Bool :=
  falsyStr f.ticketType ||
    !(decide (f.ticketType.getD "" ∈ (["ieee", "non-ieee"] : List String)))

def agreeToTermsFails (f : Form) : Bool :=
  f.agreeToTerms != JSVal.bool true && f.agreeToTerms != JSVal.str "true"

def fileFails (file : Option File) : Bool :=
  !file.isSome

/-- The validation middleware `validateRegistration` (lines 147–247):
every rule is checked, each failing rule pushes its message, and the
messages appear in the order the checks are written. -/
def validateRegistration (f : Form) (file : Option File) : List String :=
  (if fullNameFails f then ["Full name must be at least 2 characters long"] else []) ++
  (if emailFails f then ["Valid email address is required"] else []) ++
  (if phoneFails f then ["Phone number must be in format: +91XXXXXXXXXX"] else []) ++
  (if collegeFails f then ["College name is required"] else []) ++
  (if branchFails f then ["Branch is required"] else []) ++
  (if yearFails f then ["Year must be 1, 2, 3, or 4"] else []) ++
  (if genderFails f then ["Gender must be \"male\", \"female\", or \"other\""] else []) ++
  (if accommodationFails f then ["Accommodation must be \"yes\" or \"no\""] else []) ++
  (if foodPreferenceFails f then ["Food preference must be \"veg\" or \"non-veg\""] else []) ++
  (if ieeeStatusFails f then ["IEEE status must be \"member\" or \"non-member\""] else []) ++
  (if ieeeMembershipIdFails f then ["IEEE Membership ID is required for IEEE members"] else []) ++
  (if ticketTypeFails f then ["Ticket type must be \"ieee\" or \"non-ieee\""] else []) ++
  (if agreeToTermsFails f then ["You must agree to the terms and conditions"] else []) ++
  (if fileFails file then ["Transaction screenshot is required"] else [])

/- Spec-side satisfaction predicates, one per rule, written from the
specification's wording of the rules (spec §4.1). -/

def fullNameOkB (f : Form) : Bool :=
  match f.fullName with
  | some s => decide (2 ≤ (jsTrim s).length)
  | none => false

def emailOkB (f : Form) : Bool :=
  match f.email with
  | some s => emailRegexTest s
  | none => false

def phoneOkB (f : Form) : Bool :=
  match f.phone with
  | some s => phoneRegexTest s
  | none => false

def collegeOkB (f : Form) : Bool :=
  match f.college with
  | some s => decide (2 ≤ (jsTrim s).length)
  | none => false

def branchOkB (f : Form) : Bool :=
  match f.branch with
  | some s => decide (2 ≤ (jsTrim s).length)
  | none => false

def yearOkB (f : Form) : Bool :=
  match f.year with
  | some s => decide (s = "1" ∨ s = "2" ∨ s = "3" ∨ s = "4")
  | none => false

def genderOkB (f : Form) : Bool :=
  match f.gender with
  | some s => decide (jsToLower s = "male" ∨ jsToLower s = "female" ∨ jsToLower s = "other")
  | none => false

def accommodationOkB (f : Form) : Bool :=
  match f.accommodation with
  | some s => decide (s = "yes" ∨ s = "no")
  | none => false

def foodPreferenceOkB (f : Form) : Bool :=
  match f.foodPreference with
  | some s => decide (s = "veg" ∨ s = "non-veg")
  | none => false

def ieeeStatusOkB (f : Form) : Bool :=
  match f.ieeeStatus with
  | some s => decide (s = "member" ∨ s = "non-member")
  | none => false

def ieeeMembershipIdOkB (f : Form) : Bool :=
  if f.ieeeStatus == some "member" then
    match f.ieeeMembershipId with
    | some m => decide (5 ≤ (jsTrim m).length)
    | none => false
  else true

def ticketTypeOkB (f : Form) : Bool :=
  match f.ticketType with
  | some s => decide (s = "ieee" ∨ s = "non-ieee")
  | none => false

def agreeToTermsOkB (f : Form) : Bool :=
  decide (f.agreeToTerms = JSVal.bool true ∨ f.agreeToTerms = JSVal.str "true")

def fileOkB (file : Option File) : Bool :=
  file.isSome

/-- The list of violation messages dictated by the specification's rules:
one message per violated rule, in the validator's order. -/
def specValidate (f : Form) (file : Option File) : List String :=
  (if fullNameOkB f then [] else ["Full name must be at least 2 characters long"]) ++
  (if emailOkB f then [] else ["Valid email address is required"]) ++
  (if phoneOkB f then [] else ["Phone number must be in format: +91XXXXXXXXXX"]) ++
  (if collegeOkB f then [] else ["College name is required"]) ++
  (if branchOkB f then [] else ["Branch is required"]) ++
  (if yearOkB f then [] else ["Year must be 1, 2, 3, or 4"]) ++
  (if genderOkB f then [] else ["Gender must be \"male\", \"female\", or \"other\""]) ++
  (if accommodationOkB f then [] else ["Accommodation must be \"yes\" or \"no\""]) ++
  (if foodPreferenceOkB f then [] else ["Food preference must be \"veg\" or \"non-veg\""]) ++
  (if ieeeStatusOkB f then [] else ["IEEE status must be \"member\" or \"non-member\""]) ++
  (if ieeeMembershipIdOkB f then [] else ["IEEE Membership ID is required for IEEE members"]) ++
  (if ticketTypeOkB f then [] else ["Ticket type must be \"ieee\" or \"non-ieee\""]) ++
  (if agreeToTermsOkB f then [] else ["You must agree to the terms and conditions"]) ++
  (if fileOkB file then [] else ["Transaction screenshot is required"])

/-- Conjunction of all spec-side rule predicates. -/
def allRulesOkB (f : Form) (file : Option File) : Bool :=
  fullNameOkB f && emailOkB f && phoneOkB f && collegeOkB f && branchOkB f &&
  yearOkB f && genderOkB f && accommodationOkB f && foodPreferenceOkB f &&
  ieeeStatusOkB f && ieeeMembershipIdOkB f && ticketTypeOkB f &&
  agreeToTermsOkB f && fileOkB file

/-- `generateShortTicketId` (lines 284–288): `"THM-"` prefixed to
`uuid.split('-')[0]`, the text before the first hyphen. -/
def generateShortTicketId (uuid : String) : String :=
  "THM-" ++ ⟨uuid.data.takeWhile (fun c => c != '-')⟩

/-- A lowercase hexadecimal digit. -/
def isLowerHexChar (c : Char) : Bool :=
  c.isDigit || ('a' ≤ c && c ≤ 'f')

/-- A canonical (lowercase, 8-4-4-4-12) version-4 UUID string, as produced
by `uuidv4()`: the third group starts with the version nibble `4` and the
fourth with a variant nibble in `8..b`. -/
def IsCanonicalUuidV4 (s : String) : Prop :=
  ∃ g1 g2 g3 g4 g5 : List Char,
    s.data = g1 ++ '-' :: (g2 ++ '-' :: (g3 ++ '-' :: (g4 ++ '-' :: g5))) ∧
    g1.length = 8 ∧ g2.length = 4 ∧ g3.length = 4 ∧ g4.length = 4 ∧ g5.length = 12 ∧
    (g1 ++ g2 ++ g3 ++ g4 ++ g5).all isLowerHexChar = true ∧
    g3.head? = some '4' ∧
    (∃ y, g4.head? = some y ∧ y ∈ ['8', '9', 'a', 'b'])

/-- The `response.data` object of the ImgBB provider, as inspected by
`uploadToImgBB` (lines 250–281). -/
structure ImgBBData where
  success : Bool
  url : String
  deleteUrl : String
deriving DecidableEq, Repr

/-- The value `uploadToImgBB` resolves with on the happy path. -/
structure UploadResult where
  success : Bool
  url : String
  deleteUrl : String
deriving DecidableEq, Repr

/-- `uploadToImgBB` (lines 250–281), with the provider call modelled by its
outcome: a thrown transport error, or a response whose `data` may be absent
or carry `success = false`; every failure is re-thrown with the
`Failed to upload image to ImgBB: ` prefix. -/
def uploadToImgBB (providerResp : Except String (Option ImgBBData)) :
    Except String UploadResult :=
  match providerResp with
  | .ok (some d) =>
      if d.success then .ok ⟨true, d.url, d.deleteUrl⟩
      else .error ("Failed to upload image to ImgBB: " ++ "ImgBB upload failed")
  | .ok none => .error ("Failed to upload image to ImgBB: " ++ "ImgBB upload failed")
  | .error e => .error ("Failed to upload image to ImgBB: " ++ e)

/-- The persisted ticket record (`registrationDoc`, lines 344–365), with
timestamps as epoch milliseconds. -/
structure RegistrationDoc where
  ticketId : String
  shortTicketId : String
  fullName : String
  email : String
  phone : String
  college : String
  branch : String
  year : String
  gender : String
  accommodation : String
  foodPreference : String
  ieeeStatus : String
  ieeeMembershipId : Option String
  ticketType : String
  transactionScreenshotUrl : String
  transactionScreenshotDeleteUrl : String
  agreeToTerms : Bool
  status : String
  createdAt : Nat
  updatedAt : Nat
deriving DecidableEq, Repr

/-- Builds the document inserted by the handler (lines 344–365).  The
handler runs only after `validateRegistration` has passed, so every
destructured field is present; absent fields default to `""` here. -/
def registrationDoc (f : Form) (fullTicketId shortTicketId : String)
    (upl : UploadResult) (now : Nat) : RegistrationDoc where
  ticketId := fullTicketId
  shortTicketId := shortTicketId
  fullName := jsTrim (f.fullName.getD "")
  email := jsTrim (jsToLower (f.email.getD ""))
  phone := jsTrim (f.phone.getD "")
  college := jsTrim (f.college.getD "")
  branch := jsTrim (f.branch.getD "")
  year := f.year.getD ""
  gender := jsTrim (jsToLower (f.gender.getD ""))
  accommodation := f.accommodation.getD ""
  foodPreference := f.foodPreference.getD ""
  ieeeStatus := f.ieeeStatus.getD ""
  ieeeMembershipId :=
    if f.ieeeStatus == some "member" then some (jsTrim (f.ieeeMembershipId.getD "")) else none
  ticketType := f.ticketType.getD ""
  transactionScreenshotUrl := upl.url
  transactionScreenshotDeleteUrl := upl.deleteUrl
  agreeToTerms := f.agreeToTerms == JSVal.bool true || f.agreeToTerms == JSVal.str "true"
  status := "pending"
  createdAt := now
  updatedAt := now

/-- `registrationsCollection.findOne({ email: key })`: first record whose
`email` field equals the key. -/
def findOneByEmail (store : List RegistrationDoc) (key : String) : Option RegistrationDoc :=
  store.find? (fun r => r.email == key)

/-- `findOne({ $or: [{ticketId: id}, {shortTicketId: id}] })` of the lookup
endpoint (lines 422–427). -/
def findByEitherId (store : List RegistrationDoc) (id : String) : Option RegistrationDoc :=
  store.find? (fun r => r.ticketId == id || r.shortTicketId == id)

/-- Whether inserting `d` would violate one of the three unique indexes
created in `connectDB` (lines 135–137). -/
def hasKeyConflict (store : List RegistrationDoc) (d : RegistrationDoc) : Bool :=
  store.any (fun r =>
    r.email == d.email || r.ticketId == d.ticketId || r.shortTicketId == d.shortTicketId)

/-- Outcome of `registrationsCollection.insertOne`: success, or the
MongoDB duplicate-key error (`error.code === 11000`). -/
inductive InsertResult where
  | ok (newStore : List RegistrationDoc)
  | dupKey
deriving DecidableEq, Repr

/-- `insertOne` against the collection with unique indexes on `email`,
`ticketId` and `shortTicketId`. -/
def insertOne (store : List RegistrationDoc) (d : RegistrationDoc) : InsertResult :=
  if hasKeyConflict store d then .dupKey else .ok (store ++ [d])

/-- Two-digit zero-padded decimal. -/
def pad2 (n : Nat) : String :=
  if n < 10 then "0" ++ toString n else toString n

/-- Three-digit zero-padded decimal. -/
def pad3 (n : Nat) : String :=
  if n < 10 then "00" ++ toString n
  else if n < 100 then "0" ++ toString n
  else toString n

/-- Proleptic-Gregorian civil date `(year, month, day)` from a count of
days since 1970-01-01 (valid for non-negative day counts). -/
def civilFromDays (z : Nat) : Nat × Nat × Nat :=
  let zz := z + 719468
  let era := zz / 146097
  let doe := zz % 146097
  let yoe := (doe - doe / 1460 + doe / 36524 - doe / 146096) / 365
  let y := yoe + era * 400
  let doy := doe - (365 * yoe + yoe / 4 - yoe / 100)
  let mp := (5 * doy + 2) / 153
  let d := doy - (153 * mp + 2) / 5 + 1
  let m := if mp < 10 then mp + 3 else mp - 9
  (if m ≤ 2 then y + 1 else y, m, d)

/-- Models JavaScript `Date.prototype.toISOString` for a non-negative
epoch-millisecond timestamp: `YYYY-MM-DDTHH:mm:ss.sssZ`. -/
def toISOString (t : Nat) : String :=
  let ms := t % 1000
  let totalSeconds := t / 1000
  let ss := totalSeconds % 60
  let mm := (totalSeconds / 60) % 60
  let hh := (totalSeconds / 3600) % 24
  let ymd := civilFromDays (totalSeconds / 86400)
  toString ymd.1 ++ "-" ++ pad2 ymd.2.1 ++ "-" ++ pad2 ymd.2.2 ++ "T" ++
    pad2 hh ++ ":" ++ pad2 mm ++ ":" ++ pad2 ss ++ "." ++ pad3 ms ++ "Z"

/-- The fixed-order row built by `appendToGoogleSheets` (lines 85–103). -/
def sheetRow (d : RegistrationDoc) : List String :=
  [d.ticketId, d.shortTicketId, d.fullName, d.email, d.phone, d.college, d.branch,
   d.year, d.gender, d.accommodation, d.foodPreference, d.ieeeStatus,
   d.ieeeMembershipId.getD "", d.ticketType, d.transactionScreenshotUrl, d.status,
   toISOString d.createdAt]

/-- What became of the scheduled sheet append: skipped because the sink is
unconfigured, appended, or failed with the error caught and logged. -/
inductive MirrorOutcome where
  | skipped
  | appended (row : List String)
  | failedLogged (err : String)
deriving DecidableEq, Repr

/-- `appendToGoogleSheets` (lines 76–121): the body of the background task.
`configured` models `sheets && process.env.GOOGLE_SHEET_ID`; `sheetsApi`
models the outcome of the `spreadsheets.values.append` call.  The function
is total: no outcome is ever propagated as an exception. -/
def appendToGoogleSheets (configured : Bool) (sheetsApi : Except String Unit)
    (d : RegistrationDoc) : MirrorOutcome :=
  if !configured then .skipped
  else
    match sheetsApi with
    | .ok _ => .appended (sheetRow d)
    | .error e => .failedLogged e

/-- One observable call made by the registration handler to an external
service, in the order the calls happen. -/
inductive Effect where
  | findByEmail (key : String)
  | genTicketId (uuid : String)
  | imgbbUpload (name : String)
  | insert (doc : RegistrationDoc)
  | scheduleSheetSync (doc : RegistrationDoc)
deriving DecidableEq, Repr

/-- The JSON responses of `POST /api/register`. -/
inductive Response where
  | validationFailed (errors : List String)
  | duplicateEmail
  | duplicateKey
  | registrationFailed (err : String)
  | created (ticketId shortTicketId email : String)
deriving DecidableEq, Repr

/-- HTTP status of each registration response (lines 239, 317, 377, 392, 400). -/
def Response.status : Response → Nat
  | .validationFailed _ => 400
  | .duplicateEmail => 400
  | .duplicateKey => 400
  | .registrationFailed _ => 500
  | .created _ _ _ => 201

/-- Everything one run of the registration pipeline produces: the HTTP
response, the store afterwards, the external calls made, and the outcome of
the scheduled sheet mirror (if one was scheduled). -/
structure HandlerResult where
  response : Response
  store : List RegistrationDoc
  effects : List Effect
  mirror : Option MirrorOutcome
deriving DecidableEq, Repr

/-- The registration pipeline: `validateRegistration` middleware followed by
the `POST /api/register` handler (lines 291–406).  Non-deterministic inputs
are parameters: `uuid` is the value of `uuidv4()`, `imgbbResp` the ImgBB
provider outcome, `sheetsConfigured`/`sheetsApi` the sheet sink, `now` the
clock (epoch ms). -/
def handleRegister (f : Form) (file : Option File) (store : List RegistrationDoc)
    (uuid : String) (imgbbResp : Except String (Option ImgBBData))
    (sheetsConfigured : Bool) (sheetsApi : Except String Unit) (now : Nat) :
    HandlerResult :=
  if 0 < (validateRegistration f file).length then
    { response := .validationFailed (validateRegistration f file),
      store := store, effects := [], mirror := none }
  else
    match findOneByEmail store (jsToLower (f.email.getD "")) with
    | some _ =>
        { response := .duplicateEmail, store := store,
          effects := [.findByEmail (jsToLower (f.email.getD ""))], mirror := none }
    | none =>
        match uploadToImgBB imgbbResp with
        | .error e =>
            { response := .registrationFailed e, store := store,
              effects :=
                [.findByEmail (jsToLower (f.email.getD "")),
                 .genTicketId uuid,
                 .imgbbUpload ("transaction_" ++ generateShortTicketId uuid ++ "_" ++ toString now)],
              mirror := none }
        | .ok uploadResult =>
            if !uploadResult.success then
              { response := .registrationFailed "Failed to upload transaction screenshot",
                store := store,
                effects :=
                  [.findByEmail (jsToLower (f.email.getD "")),
                   .genTicketId uuid,
                   .imgbbUpload ("transaction_" ++ generateShortTicketId uuid ++ "_" ++ toString now)],
                mirror := none }
            else
              let doc := registrationDoc f uuid (generateShortTicketId uuid) uploadResult now
              match insertOne store doc with
              | .dupKey =>
                  { response := .duplicateKey, store := store,
                    effects :=
                      [.findByEmail (jsToLower (f.email.getD "")),
                       .genTicketId uuid,
                       .imgbbUpload ("transaction_" ++ generateShortTicketId uuid ++ "_" ++ toString now),
                       .insert doc],
                    mirror := none }
              | .ok newStore =>
                  { response :=
                      .created uuid (generateShortTicketId uuid)
                        (jsTrim (jsToLower (f.email.getD ""))),
                    store := newStore,
                    effects :=
                      [.findByEmail (jsToLower (f.email.getD "")),
                       .genTicketId uuid,
                       .imgbbUpload ("transaction_" ++ generateShortTicketId uuid ++ "_" ++ toString now),
                       .insert doc,
                       .scheduleSheetSync doc],
                    mirror := some (appendToGoogleSheets sheetsConfigured sheetsApi doc) }

/-- The record as returned by the lookup endpoint: every persisted field
except `transactionScreenshotDeleteUrl`. -/
structure SafeDoc where
  ticketId : String
  shortTicketId : String
  fullName : String
  email : String
  phone : String
  college : String
  branch : String
  year : String
  gender : String
  accommodation : String
  foodPreference : String
  ieeeStatus : String
  ieeeMembershipId : Option String
  ticketType : String
  transactionScreenshotUrl : String
  agreeToTerms : Bool
  status : String
  createdAt : Nat
  updatedAt : Nat
deriving DecidableEq, Repr

/-- The rest-destructuring `const { transactionScreenshotDeleteUrl, ...safeData }`
(line 437). -/
def stripDeleteUrl (d : RegistrationDoc) : SafeDoc where
  ticketId := d.ticketId
  shortTicketId := d.shortTicketId
  fullName := d.fullName
  email := d.email
  phone := d.phone
  college := d.college
  branch := d.branch
  year := d.year
  gender := d.gender
  accommodation := d.accommodation
  foodPreference := d.foodPreference
  ieeeStatus := d.ieeeStatus
  ieeeMembershipId := d.ieeeMembershipId
  ticketType := d.ticketType
  transactionScreenshotUrl := d.transactionScreenshotUrl
  agreeToTerms := d.agreeToTerms
  status := d.status
  createdAt := d.createdAt
  updatedAt := d.updatedAt

/-- The JSON responses of `GET /api/registration/:ticketId`. -/
inductive LookupResponse where
  | found (data : SafeDoc)
  | notFound
deriving DecidableEq, Repr

/-- HTTP status of each lookup response (lines 430, 439). -/
def LookupResponse.status : LookupResponse → Nat
  | .found _ => 200
  | .notFound => 404

/-- The lookup endpoint handler (lines 418–451). -/
def getRegistrationHandler (store : List RegistrationDoc) (id : String) : LookupResponse :=
  match findByEitherId store id with
  | none => .notFound
  | some r => .found (stripDeleteUrl r)

/-! ## Concrete sample data (used by the witness theorems) -/

/-- A concrete valid submission. -/
def sampleForm : Form where
  fullName := some "Jane Doe"
  email := some "Jane@X.com"
  phone := some "+919876543210"
  college := some "ABC"
  branch := some "CS"
  year := some "2"
  gender := some "Female"
  accommodation := some "no"
  foodPreference := some "veg"
  ieeeStatus := some "member"
  ieeeMembershipId := some "12345678"
  ticketType := some "ieee"
  agreeToTerms := .str "true"

/-- The same submission with an invalid phone number (leading digit 5). -/
def badPhoneForm : Form :=
  { sampleForm with phone := some "+915876543210" }

def sampleFile : File := ⟨"screenshot-bytes"⟩

def sampleUuid : String := "9f1b2c3d-4e5f-4a6b-8c7d-0123456789ab"

def sampleImgBBData : ImgBBData :=
  ⟨true, "https://i.ibb.co/x.png", "https://ibb.co/del"⟩

def sampleUploadResult : UploadResult :=
  ⟨true, "https://i.ibb.co/x.png", "https://ibb.co/del"⟩

/-- The record the pipeline persists for `sampleForm`. -/
def sampleDoc : RegistrationDoc :=
  registrationDoc sampleForm sampleUuid (generateShortTicketId sampleUuid)
    sampleUploadResult 1000

/-! ## Helper lemmas -/

theorem dropWhile_eq_self_of_forall {p : Char → Bool} {l : List Char}
    (h : ∀ c ∈ l, p c = false) : l.dropWhile p = l := by
  cases l with
  | nil => rfl
  | cons a t => rw [List.dropWhile_cons, h a (List.mem_cons_self a t)]; simp

theorem jsTrim_eq_self {s : String} (h : ∀ c ∈ s.data, c.isWhitespace = false) :
    jsTrim s = s := by
  unfold jsTrim
  rw [dropWhile_eq_self_of_forall h,
      dropWhile_eq_self_of_forall (fun c hc => h c (List.mem_reverse.mp hc)),
      List.reverse_reverse]

theorem emailChar_not_ws {c : Char} (h : emailChar c = true) : c.isWhitespace = false := by
  simp only [emailChar, Bool.and_eq_true, Bool.not_eq_true'] at h
  exact h.1

theorem emailRegexTest_no_ws {s : String} (h : emailRegexTest s = true) :
    ∀ c ∈ s.data, c.isWhitespace = false := by
  unfold emailRegexTest at h
  split at h
  next dom heq =>
    simp only [Bool.and_eq_true, bne_iff_ne, ne_eq, List.all_eq_true] at h
    obtain ⟨⟨⟨hne, hloc⟩, hdom⟩, hdot⟩ := h
    intro c hc
    have hsplit := List.takeWhile_append_dropWhile (p := fun c => c != '@') (l := s.data)
    rw [heq] at hsplit
    rw [← hsplit] at hc
    rcases List.mem_append.mp hc with h1 | h2
    · exact emailChar_not_ws (hloc c h1)
    · rcases List.mem_cons.mp h2 with rfl | h3
      · rfl
      · exact emailChar_not_ws (hdom c h3)
  next => exact absurd h (by simp)

theorem decide_lt_eq_not_decide_le (a b : Nat) : decide (a < b) = !decide (b ≤ a) := by
  by_cases h : b ≤ a
  · simp [h, not_lt.mpr h]
  · simp [h, not_le.mp h]

theorem if_not_bool {α : Type} (b : Bool) (x y : α) :
    (if !b then x else y) = if b then y else x := by
  cases b <;> simp

/-! ## Per-rule equivalences: the validator's failure conditions are the
negations of the specification's rule predicates. -/

theorem fullNameFails_eq (f : Form) : fullNameFails f = !fullNameOkB f := by
  cases hf : f.fullName with
  | none => simp [fullNameFails, fullNameOkB, falsyStr, hf]
  | some s =>
    by_cases hs : s = ""
    · subst hs; simp only [fullNameFails, fullNameOkB, falsyStr, hf, Option.getD_some]; decide
    · have hbe : (s == "") = false := beq_eq_false_iff_ne.mpr hs
      simp only [fullNameFails, fullNameOkB, falsyStr, hf, Option.getD_some, hbe, Bool.false_or]
      exact decide_lt_eq_not_decide_le _ _

theorem emailFails_eq (f : Form) : emailFails f = !emailOkB f := by
  cases hf : f.email with
  | none => simp [emailFails, emailOkB, falsyStr, hf]
  | some s =>
    by_cases hs : s = ""
    · subst hs; simp only [emailFails, emailOkB, falsyStr, hf, Option.getD_some]; decide
    · simp [emailFails, emailOkB, falsyStr, hf, hs]

theorem phoneFails_eq (f : Form) : phoneFails f = !phoneOkB f := by
  cases hf : f.phone with
  | none => simp [phoneFails, phoneOkB, falsyStr, hf]
  | some s =>
    by_cases hs : s = ""
    · subst hs; simp only [phoneFails, phoneOkB, falsyStr, hf, Option.getD_some]; decide
    · simp [phoneFails, phoneOkB, falsyStr, hf, hs]

theorem collegeFails_eq (f : Form) : collegeFails f = !collegeOkB f := by
  cases hf : f.college with
  | none => simp [collegeFails, collegeOkB, falsyStr, hf]
  | some s =>
    by_cases hs : s = ""
    · subst hs; simp only [collegeFails, collegeOkB, falsyStr, hf, Option.getD_some]; decide
    · have hbe : (s == "") = false := beq_eq_false_iff_ne.mpr hs
      simp only [collegeFails, collegeOkB, falsyStr, hf, Option.getD_some, hbe, Bool.false_or]
      exact decide_lt_eq_not_decide_le _ _

theorem branchFails_eq (f : Form) : branchFails f = !branchOkB f := by
  cases hf : f.branch with
  | none => simp [branchFails, branchOkB, falsyStr, hf]
  | some s =>
    by_cases hs : s = ""
    · subst hs; simp only [branchFails, branchOkB, falsyStr, hf, Option.getD_some]; decide
    · have hbe : (s == "") = false := beq_eq_false_iff_ne.mpr hs
      simp only [branchFails, branchOkB, falsyStr, hf, Option.getD_some, hbe, Bool.false_or]
      exact decide_lt_eq_not_decide_le _ _

theorem yearFails_eq (f : Form) : yearFails f = !yearOkB f := by
  cases hf : f.year with
  | none => simp [yearFails, yearOkB, falsyStr, hf]
  | some s =>
    by_cases hs : s = ""
    · subst hs; simp only [yearFails, yearOkB, falsyStr, hf, Option.getD_some]; decide
    · simp [yearFails, yearOkB, falsyStr, hf, hs]

theorem genderFails_eq (f : Form) : genderFails f = !genderOkB f := by
  cases hf : f.gender with
  | none => simp [genderFails, genderOkB, falsyStr, hf]
  | some s =>
    by_cases hs : s = ""
    · subst hs; simp only [genderFails, genderOkB, falsyStr, hf, Option.getD_some]; decide
    · simp [genderFails, genderOkB, falsyStr, hf, hs]

theorem accommodationFails_eq (f : Form) : accommodationFails f = !accommodationOkB f := by
  cases hf : f.accommodation with
  | none => simp [accommodationFails, accommodationOkB, falsyStr, hf]
  | some s =>
    by_cases hs : s = ""
    · subst hs
      simp only [accommodationFails, accommodationOkB, falsyStr, hf, Option.getD_some]; decide
    · simp [accommodationFails, accommodationOkB, falsyStr, hf, hs]

theorem foodPreferenceFails_eq (f : Form) : foodPreferenceFails f = !foodPreferenceOkB f := by
  cases hf : f.foodPreference with
  | none => simp [foodPreferenceFails, foodPreferenceOkB, falsyStr, hf]
  | some s =>
    by_cases hs : s = ""
    · subst hs
      simp only [foodPreferenceFails, foodPreferenceOkB, falsyStr, hf, Option.getD_some]; decide
    · simp [foodPreferenceFails, foodPreferenceOkB, falsyStr, hf, hs]

theorem ieeeStatusFails_eq (f : Form) : ieeeStatusFails f = !ieeeStatusOkB f := by
  cases hf : f.ieeeStatus with
  | none => simp [ieeeStatusFails, ieeeStatusOkB, falsyStr, hf]
  | some s =>
    by_cases hs : s = ""
    · subst hs
      simp only [ieeeStatusFails, ieeeStatusOkB, falsyStr, hf, Option.getD_some]; decide
    · simp [ieeeStatusFails, ieeeStatusOkB, falsyStr, hf, hs]

theorem ieeeMembershipIdFails_eq (f : Form) : ieeeMembershipIdFails f = !ieeeMembershipIdOkB f := by
  by_cases hst : f.ieeeStatus == some "member"
  · cases hm : f.ieeeMembershipId with
    | none => simp [ieeeMembershipIdFails, ieeeMembershipIdOkB, falsyStr, hst, hm]
    | some m =>
      by_cases hms : m = ""
      · subst hms
        simp only [ieeeMembershipIdFails, ieeeMembershipIdOkB, falsyStr, hst, hm,
          Option.getD_some, if_true, Bool.true_and]
        decide
      · have hbe : (m == "") = false := beq_eq_false_iff_ne.mpr hms
        simp only [ieeeMembershipIdFails, ieeeMembershipIdOkB, falsyStr, hst, hm,
          Option.getD_some, if_true, Bool.true_and, hbe, Bool.false_or]
        exact decide_lt_eq_not_decide_le _ _
  · simp [ieeeMembershipIdFails, ieeeMembershipIdOkB, hst]

theorem ticketTypeFails_eq (f : Form) : ticketTypeFails f = !ticketTypeOkB f := by
  cases hf : f.ticketType with
  | none => simp [ticketTypeFails, ticketTypeOkB, falsyStr, hf]
  | some s =>
    by_cases hs : s = ""
    · subst hs
      simp only [ticketTypeFails, ticketTypeOkB, falsyStr, hf, Option.getD_some]; decide
    · simp [ticketTypeFails, ticketTypeOkB, falsyStr, hf, hs]

theorem agreeToTermsFails_eq (f : Form) : agreeToTermsFails f = !agreeToTermsOkB f := by
  cases h : f.agreeToTerms with
  | undef => simp [agreeToTermsFails, agreeToTermsOkB, h]
  | bool b => cases b <;> simp [agreeToTermsFails, agreeToTermsOkB, h]
  | str s =>
    by_cases hs : s = "true"
    · subst hs; simp [agreeToTermsFails, agreeToTermsOkB, h]
    · simp [agreeToTermsFails, agreeToTermsOkB, h, hs]

theorem fileFails_eq (file : Option File) : fileFails file = !fileOkB file := rfl

/-- The validator computes exactly the specification's violation list. -/
theorem validate_eq_spec (f : Form) (file : Option File) :
    validateRegistration f file = specValidate f file := by
  unfold validateRegistration specValidate
  rw [fullNameFails_eq, emailFails_eq, phoneFails_eq, collegeFails_eq, branchFails_eq,
      yearFails_eq, genderFails_eq, accommodationFails_eq, foodPreferenceFails_eq,
      ieeeStatusFails_eq, ieeeMembershipIdFails_eq, ticketTypeFails_eq,
      agreeToTermsFails_eq, fileFails_eq]
  simp only [if_not_bool]

theorem if_ok_nil_iff (b : Bool) (m : String) :
    ((if b then ([] : List String) else [m]) = []) ↔ b = true := by
  cases b <;> simp

/-- The validator passes exactly when every rule is satisfied. -/
theorem validate_nil_iff (f : Form) (file : Option File) :
    validateRegistration f file = [] ↔ allRulesOkB f file = true := by
  rw [validate_eq_spec]
  unfold specValidate allRulesOkB
  simp only [List.append_eq_nil, if_ok_nil_iff, Bool.and_eq_true]

/-- Each rule predicate extracted from a passing validation. -/
theorem validate_nil_parts {f : Form} {file : Option File}
    (h : validateRegistration f file = []) :
    fullNameOkB f = true ∧ emailOkB f = true ∧ phoneOkB f = true ∧ collegeOkB f = true ∧
    branchOkB f = true ∧ yearOkB f = true ∧ genderOkB f = true ∧
    accommodationOkB f = true ∧ foodPreferenceOkB f = true ∧ ieeeStatusOkB f = true ∧
    ieeeMembershipIdOkB f = true ∧ ticketTypeOkB f = true ∧ agreeToTermsOkB f = true ∧
    fileOkB file = true := by
  have h2 := (validate_nil_iff f file).mp h
  simp only [allRulesOkB, Bool.and_eq_true] at h2
  tauto

/-! ## Lemmas about the short-ticket-id derivation -/

theorem takeWhile_append_of_all {p : Char → Bool} {l : List Char}
    (hl : ∀ c ∈ l, p c = true) {a : Char} (ha : p a = false) (r : List Char) :
    (l ++ a :: r).takeWhile p = l := by
  induction l with
  | nil => simp [List.takeWhile_cons, ha]
  | cons x t ih =>
    rw [List.cons_append, List.takeWhile_cons, hl x (List.mem_cons_self x t)]
    simp only [if_true]
    rw [ih (fun c hc => hl c (List.mem_cons_of_mem x hc))]

theorem isLowerHexChar_ne_hyphen {c : Char} (h : isLowerHexChar c = true) :
    (c != '-') = true := by
  rw [bne_iff_ne]
  intro hc
  subst hc
  exact absurd h (by decide)

/-! ## Lemmas about `find?` -/

theorem find?_eq_some_of_unique {α : Type} {p : α → Bool} {l : List α} {r : α}
    (hr : r ∈ l) (hpr : p r = true) (huniq : ∀ x ∈ l, p x = true → x = r) :
    l.find? p = some r := by
  induction l with
  | nil => cases hr
  | cons a t ih =>
    by_cases hpa : p a = true
    · rw [List.find?_cons_of_pos _ hpa, huniq a (List.mem_cons_self a t) hpa]
    · rw [List.find?_cons_of_neg _ (by simpa using hpa)]
      rcases List.mem_cons.mp hr with rfl | hrt
      · exact absurd hpr hpa
      · exact ih hrt (fun x hx hpx => huniq x (List.mem_cons_of_mem a hx) hpx)

/-! ## Branch-by-branch shapes of the registration pipeline -/

theorem handleRegister_validation_fail {f : Form} {file : Option File}
    {store : List RegistrationDoc} {uuid : String}
    {resp : Except String (Option ImgBBData)} {cfg : Bool} {api : Except String Unit}
    {now : Nat} (h : validateRegistration f file ≠ []) :
    handleRegister f file store uuid resp cfg api now =
      { response := .validationFailed (validateRegistration f file), store := store,
        effects := [], mirror := none } := by
  have hp : 0 < (validateRegistration f file).length := List.length_pos.mpr h
  simp only [handleRegister, if_pos hp]

theorem handleRegister_dup_email {f : Form} {file : Option File}
    {store : List RegistrationDoc} {uuid : String}
    {resp : Except String (Option ImgBBData)} {cfg : Bool} {api : Except String Unit}
    {now : Nat} {r : RegistrationDoc}
    (hval : validateRegistration f file = [])
    (hfound : findOneByEmail store (jsToLower (f.email.getD "")) = some r) :
    handleRegister f file store uuid resp cfg api now =
      { response := .duplicateEmail, store := store,
        effects := [.findByEmail (jsToLower (f.email.getD ""))], mirror := none } := by
  have hp : ¬ 0 < (validateRegistration f file).length := by rw [hval]; simp
  simp only [handleRegister, if_neg hp, hfound]

theorem handleRegister_upload_error {f : Form} {file : Option File}
    {store : List RegistrationDoc} {uuid : String}
    {resp : Except String (Option ImgBBData)} {cfg : Bool} {api : Except String Unit}
    {now : Nat} {e : String}
    (hval : validateRegistration f file = [])
    (hnone : findOneByEmail store (jsToLower (f.email.getD "")) = none)
    (herr : uploadToImgBB resp = .error e) :
    handleRegister f file store uuid resp cfg api now =
      { response := .registrationFailed e, store := store,
        effects :=
          [.findByEmail (jsToLower (f.email.getD "")),
           .genTicketId uuid,
           .imgbbUpload ("transaction_" ++ generateShortTicketId uuid ++ "_" ++ toString now)],
        mirror := none } := by
  have hp : ¬ 0 < (validateRegistration f file).length := by rw [hval]; simp
  simp only [handleRegister, if_neg hp, hnone, herr]

theorem handleRegister_upload_not_success {f : Form} {file : Option File}
    {store : List RegistrationDoc} {uuid : String}
    {resp : Except String (Option ImgBBData)} {cfg : Bool} {api : Except String Unit}
    {now : Nat} {upl : UploadResult}
    (hval : validateRegistration f file = [])
    (hnone : findOneByEmail store (jsToLower (f.email.getD "")) = none)
    (hok : uploadToImgBB resp = .ok upl) (hns : upl.success = false) :
    handleRegister f file store uuid resp cfg api now =
      { response := .registrationFailed "Failed to upload transaction screenshot",
        store := store,
        effects :=
          [.findByEmail (jsToLower (f.email.getD "")),
           .genTicketId uuid,
           .imgbbUpload ("transaction_" ++ generateShortTicketId uuid ++ "_" ++ toString now)],
        mirror := none } := by
  have hp : ¬ 0 < (validateRegistration f file).length := by rw [hval]; simp
  simp only [handleRegister, if_neg hp, hnone, hok, hns, Bool.not_false, if_true]

theorem handleRegister_insert_dupkey {f : Form} {file : Option File}
    {store : List RegistrationDoc} {uuid : String}
    {resp : Except String (Option ImgBBData)} {cfg : Bool} {api : Except String Unit}
    {now : Nat} {upl : UploadResult}
    (hval : validateRegistration f file = [])
    (hnone : findOneByEmail store (jsToLower (f.email.getD "")) = none)
    (hok : uploadToImgBB resp = .ok upl) (hs : upl.success = true)
    (hins : insertOne store (registrationDoc f uuid (generateShortTicketId uuid) upl now)
      = .dupKey) :
    handleRegister f file store uuid resp cfg api now =
      { response := .duplicateKey, store := store,
        effects :=
          [.findByEmail (jsToLower (f.email.getD "")),
           .genTicketId uuid,
           .imgbbUpload ("transaction_" ++ generateShortTicketId uuid ++ "_" ++ toString now),
           .insert (registrationDoc f uuid (generateShortTicketId uuid) upl now)],
        mirror := none } := by
  have hp : ¬ 0 < (validateRegistration f file).length := by rw [hval]; simp
  simp only [handleRegister, if_neg hp, hnone, hok, hs, hins, Bool.not_true, if_false]
  rw [if_neg (show ¬ (false = true) by simp)]

theorem handleRegister_success {f : Form} {file : Option File}
    {store : List RegistrationDoc} {uuid : String}
    {resp : Except String (Option ImgBBData)} {cfg : Bool} {api : Except String Unit}
    {now : Nat} {upl : UploadResult} {newStore : List RegistrationDoc}
    (hval : validateRegistration f file = [])
    (hnone : findOneByEmail store (jsToLower (f.email.getD "")) = none)
    (hok : uploadToImgBB resp = .ok upl) (hs : upl.success = true)
    (hins : insertOne store (registrationDoc f uuid (generateShortTicketId uuid) upl now)
      = .ok newStore) :
    handleRegister f file store uuid resp cfg api now =
      { response :=
          .created uuid (generateShortTicketId uuid) (jsTrim (jsToLower (f.email.getD ""))),
        store := newStore,
        effects :=
          [.findByEmail (jsToLower (f.email.getD "")),
           .genTicketId uuid,
           .imgbbUpload ("transaction_" ++ generateShortTicketId uuid ++ "_" ++ toString now),
           .insert (registrationDoc f uuid (generateShortTicketId uuid) upl now),
           .scheduleSheetSync (registrationDoc f uuid (generateShortTicketId uuid) upl now)],
        mirror :=
          some (appendToGoogleSheets cfg api
            (registrationDoc f uuid (generateShortTicketId uuid) upl now)) } := by
  have hp : ¬ 0 < (validateRegistration f file).length := by rw [hval]; simp
  simp only [handleRegister, if_neg hp, hnone, hok, hs, hins, Bool.not_true, if_false]
  rw [if_neg (show ¬ (false = true) by simp)]

/-- Characterization of any document for which an insert call happens:
validation passed, the duplicate-email lookup found nothing, the upload
succeeded, and the document is the one built by `registrationDoc`. -/
theorem insert_effect_characterization {f : Form} {file : Option File}
    {store : List RegistrationDoc} {uuid : String}
    {resp : Except String (Option ImgBBData)} {cfg : Bool} {api : Except String Unit}
    {now : Nat} {d : RegistrationDoc}
    (h : Effect.insert d ∈ (handleRegister f file store uuid resp cfg api now).effects) :
    validateRegistration f file = [] ∧
    findOneByEmail store (jsToLower (f.email.getD "")) = none ∧
    ∃ upl, uploadToImgBB resp = .ok upl ∧ upl.success = true ∧
      d = registrationDoc f uuid (generateShortTicketId uuid) upl now := by
  rcases hv : validateRegistration f file with _ | ⟨a, t⟩
  · rcases hfind : findOneByEmail store (jsToLower (f.email.getD "")) with _ | r
    · rcases hupl : uploadToImgBB resp with e | upl
      · rw [handleRegister_upload_error hv hfind hupl] at h
        simp at h
      · rcases hsu : upl.success with _ | _
        · rw [handleRegister_upload_not_success hv hfind hupl hsu] at h
          simp at h
        · rcases hins : insertOne store
              (registrationDoc f uuid (generateShortTicketId uuid) upl now) with ns | _
          · rw [handleRegister_success hv hfind hupl hsu hins] at h
            simp at h
            exact ⟨rfl, rfl, upl, rfl, hsu, h⟩
          · rw [handleRegister_insert_dupkey hv hfind hupl hsu hins] at h
            simp at h
            exact ⟨rfl, rfl, upl, rfl, hsu, h⟩
    · rw [handleRegister_dup_email hv hfind] at h
      simp at h
  · rw [handleRegister_validation_fail (by rw [hv]; simp)] at h
    simp at h

/-! ## Claim theorems -/

/-- C1: for every submission that passes validation, the pipeline queries the
registration store keyed by the lower-cased and trimmed submitted email, and
when a record is found it exits with the 400-class duplicate-email error:
the store is unchanged and no ticket-id generation, image upload, or
persistence call is attempted. -/
theorem register_duplicate_email_guard
    (f : Form) (file : Option File) (store : List RegistrationDoc) (uuid : String)
    (resp : Except String (Option ImgBBData)) (cfg : Bool) (api : Except String Unit)
    (now : Nat) (e : String) (r : RegistrationDoc)
    (hval : validateRegistration f file = [])
    (hemail : f.email = some e)
    (hfound : findOneByEmail store (jsToLower (jsTrim e)) = some r) :
    (handleRegister f file store uuid resp cfg api now).response = .duplicateEmail ∧
    (handleRegister f file store uuid resp cfg api now).response.status = 400 ∧
    (handleRegister f file store uuid resp cfg api now).store = store ∧
    (handleRegister f file store uuid resp cfg api now).effects
      = [.findByEmail (jsToLower (jsTrim e))] ∧
    (∀ u, Effect.genTicketId u ∉ (handleRegister f file store uuid resp cfg api now).effects) ∧
    (∀ n, Effect.imgbbUpload n ∉ (handleRegister f file store uuid resp cfg api now).effects) ∧
    (∀ d, Effect.insert d ∉ (handleRegister f file store uuid resp cfg api now).effects) := by
  have hok := (validate_nil_parts hval).2.1
  have htest : emailRegexTest e = true := by
    rw [emailOkB, hemail] at hok
    exact hok
  have htrim : jsTrim e = e := jsTrim_eq_self (emailRegexTest_no_ws htest)
  rw [htrim] at hfound
  have hfound2 : findOneByEmail store (jsToLower (f.email.getD "")) = some r := by
    rw [hemail]
    exact hfound
  rw [handleRegister_dup_email hval hfound2]
  refine ⟨rfl, rfl, rfl, ?_, ?_, ?_, ?_⟩
  · rw [hemail, htrim]
    rfl
  · intro u; simp
  · intro n; simp
  · intro d; simp

theorem register_duplicate_email_guard_witness :
    (handleRegister sampleForm (some sampleFile) [sampleDoc] sampleUuid
        (.ok (some sampleImgBBData)) false (.ok ()) 2000).response = .duplicateEmail ∧
    (handleRegister sampleForm (some sampleFile) [sampleDoc] sampleUuid
        (.ok (some sampleImgBBData)) false (.ok ()) 2000).effects
      = [.findByEmail (jsToLower (jsTrim "Jane@X.com"))] := by
  have h := register_duplicate_email_guard sampleForm (some sampleFile) [sampleDoc]
    sampleUuid (.ok (some sampleImgBBData)) false (.ok ()) 2000 "Jane@X.com" sampleDoc
    (by decide) rfl (by decide)
  exact ⟨h.1, h.2.2.2.1⟩

/-- C2: whenever the image upload fails, the registration endpoint answers
with the 500-class failure, the store is unchanged, and no insert (nor
mirror scheduling) happens for that submission. -/
theorem upload_failure_no_partial_write
    (f : Form) (file : Option File) (store : List RegistrationDoc) (uuid : String)
    (resp : Except String (Option ImgBBData)) (cfg : Bool) (api : Except String Unit)
    (now : Nat) (e : String)
    (hval : validateRegistration f file = [])
    (hnodup : findOneByEmail store (jsToLower (f.email.getD "")) = none)
    (hfail : uploadToImgBB resp = .error e) :
    (handleRegister f file store uuid resp cfg api now).response = .registrationFailed e ∧
    (handleRegister f file store uuid resp cfg api now).response.status = 500 ∧
    (handleRegister f file store uuid resp cfg api now).store = store ∧
    (∀ d, Effect.insert d ∉ (handleRegister f file store uuid resp cfg api now).effects) ∧
    (∀ d, Effect.scheduleSheetSync d
      ∉ (handleRegister f file store uuid resp cfg api now).effects) := by
  rw [handleRegister_upload_error hval hnodup hfail]
  exact ⟨rfl, rfl, rfl, fun d => by simp, fun d => by simp⟩

theorem upload_failure_no_partial_write_witness :
    (handleRegister sampleForm (some sampleFile) [] sampleUuid
        (.error "network down") false (.ok ()) 1000).response
      = .registrationFailed "Failed to upload image to ImgBB: network down" ∧
    (handleRegister sampleForm (some sampleFile) [] sampleUuid
        (.error "network down") false (.ok ()) 1000).store = [] := by
  have h := upload_failure_no_partial_write sampleForm (some sampleFile) [] sampleUuid
    (.error "network down") false (.ok ()) 1000
    "Failed to upload image to ImgBB: network down" (by decide) rfl rfl
  exact ⟨h.1, h.2.2.1⟩

/-- C3: the validator evaluates every rule without short-circuiting and
returns exactly one message per violated rule in a fixed order
(`specValidate`, built from the specification's rule predicates), returning
no violations exactly when every rule is satisfied and a non-empty list
otherwise. -/
theorem validator_complete_characterization (f : Form) (file : Option File) :
    validateRegistration f file = specValidate f file ∧
    (validateRegistration f file = [] ↔ allRulesOkB f file = true) ∧
    (allRulesOkB f file = false → validateRegistration f file ≠ []) := by
  refine ⟨validate_eq_spec f file, validate_nil_iff f file, ?_⟩
  intro hbad hnil
  have h2 := (validate_nil_iff f file).mp hnil
  rw [hbad] at h2
  exact Bool.false_ne_true h2

theorem validator_complete_characterization_witness :
    validateRegistration badPhoneForm (some sampleFile)
      = specValidate badPhoneForm (some sampleFile) ∧
    validateRegistration badPhoneForm (some sampleFile) ≠ [] :=
  ⟨(validator_complete_characterization badPhoneForm (some sampleFile)).1,
   (validator_complete_characterization badPhoneForm (some sampleFile)).2.2 (by decide)⟩

/-- C4: for every canonical version-4 UUID, the derived short ticket id is
exactly `"THM-"` followed by the UUID's first 8 characters (its first
hyphen-separated segment), those 8 characters are lowercase hexadecimal,
and the derivation is a deterministic function of the UUID. -/
theorem short_ticket_id_derivation (u : String) (h : IsCanonicalUuidV4 u) :
    generateShortTicketId u = "THM-" ++ String.mk (u.data.take 8) ∧
    (u.data.take 8).all isLowerHexChar = true ∧
    (∀ v : String, v = u → generateShortTicketId v = generateShortTicketId u) := by
  obtain ⟨g1, g2, g3, g4, g5, hdata, h1, h2, h3, h4, h5, hall, hv4, y, hy, hymem⟩ := h
  have hg1 : ∀ c ∈ g1, isLowerHexChar c = true := by
    rw [List.all_eq_true] at hall
    exact fun c hc => hall c (by simp [hc])
  have htake :
      (g1 ++ '-' :: (g2 ++ '-' :: (g3 ++ '-' :: (g4 ++ '-' :: g5)))).takeWhile
        (fun c => c != '-') = g1 :=
    takeWhile_append_of_all
      (fun c hc => isLowerHexChar_ne_hyphen (hg1 c hc)) (by decide) _
  refine ⟨?_, ?_, ?_⟩
  · unfold generateShortTicketId
    rw [hdata, htake, List.take_left' h1]
  · rw [hdata, List.take_left' h1, List.all_eq_true]
    exact hg1
  · intro v hv
    rw [hv]

theorem short_ticket_id_derivation_witness :
    generateShortTicketId sampleUuid = "THM-" ++ String.mk (sampleUuid.data.take 8) ∧
    (sampleUuid.data.take 8).all isLowerHexChar = true := by
  have h := short_ticket_id_derivation sampleUuid
    ⟨['9', 'f', '1', 'b', '2', 'c', '3', 'd'], ['4', 'e', '5', 'f'], ['4', 'a', '6', 'b'],
     ['8', 'c', '7', 'd'], ['0', '1', '2', '3', '4', '5', '6', '7', '8', '9', 'a', 'b'],
     by decide, by decide, by decide, by decide, by decide, by decide, by decide, by decide,
     '8', by decide, by decide⟩
  exact ⟨h.1, h.2.1⟩

/-- C5: every record the pipeline builds and persists has a non-null
`ieeeMembershipId` exactly when the submitted `ieeeStatus` is `"member"`;
for `"non-member"` it is null regardless of what was submitted, and for
`"member"` it is the trimmed submitted id, whose trimmed length validation
has already forced to be at least 5. -/
theorem ieee_membership_id_invariant
    (f : Form) (file : Option File) (store : List RegistrationDoc) (uuid : String)
    (resp : Except String (Option ImgBBData)) (cfg : Bool) (api : Except String Unit)
    (now : Nat) (d : RegistrationDoc)
    (hins : Effect.insert d ∈ (handleRegister f file store uuid resp cfg api now).effects) :
    (d.ieeeMembershipId ≠ none ↔ f.ieeeStatus = some "member") ∧
    (f.ieeeStatus = some "non-member" → d.ieeeMembershipId = none) ∧
    (f.ieeeStatus = some "member" →
      ∃ s, f.ieeeMembershipId = some s ∧ d.ieeeMembershipId = some (jsTrim s) ∧
        5 ≤ (jsTrim s).length) := by
  obtain ⟨hval, -, upl, -, -, hd⟩ := insert_effect_characterization hins
  subst hd
  refine ⟨?_, ?_, ?_⟩
  · by_cases hm : (f.ieeeStatus == some "member") = true
    · constructor
      · intro _; exact eq_of_beq hm
      · intro _; simp [registrationDoc, hm]
    · have hne : f.ieeeStatus ≠ some "member" := by
        intro hx; exact hm (by rw [hx]; rfl)
      simp [registrationDoc, hm, hne]
  · intro hnm
    have hb : (f.ieeeStatus == some "member") = false := by rw [hnm]; decide
    simp [registrationDoc, hb]
  · intro hm
    have hb : (f.ieeeStatus == some "member") = true := by rw [hm]; decide
    have hok := (validate_nil_parts hval).2.2.2.2.2.2.2.2.2.2.1
    rw [ieeeMembershipIdOkB, hb, if_pos rfl] at hok
    cases hmi : f.ieeeMembershipId with
    | none => rw [hmi] at hok; simp at hok
    | some s =>
      rw [hmi] at hok
      simp only [decide_eq_true_eq] at hok
      refine ⟨s, rfl, ?_, hok⟩
      simp [registrationDoc, hb, hmi]

theorem ieee_membership_id_invariant_witness :
    (registrationDoc sampleForm sampleUuid (generateShortTicketId sampleUuid)
        sampleUploadResult 1000).ieeeMembershipId ≠ none := by
  have h := ieee_membership_id_invariant sampleForm (some sampleFile) [] sampleUuid
    (.ok (some sampleImgBBData)) false (.ok ()) 1000
    (registrationDoc sampleForm sampleUuid (generateShortTicketId sampleUuid)
      sampleUploadResult 1000)
    (by decide)
  exact h.1.mpr rfl

/-- C6: when validation fails, the endpoint answers 400 with the full
violation list and performs zero store or image-host calls: the effect
trace is empty, the store is unchanged, and no mirror is scheduled. -/
theorem validation_failure_no_side_effects
    (f : Form) (file : Option File) (store : List RegistrationDoc) (uuid : String)
    (resp : Except String (Option ImgBBData)) (cfg : Bool) (api : Except String Unit)
    (now : Nat) (hval : validateRegistration f file ≠ []) :
    (handleRegister f file store uuid resp cfg api now).response
      = .validationFailed (validateRegistration f file) ∧
    (handleRegister f file store uuid resp cfg api now).response.status = 400 ∧
    (handleRegister f file store uuid resp cfg api now).effects = [] ∧
    (handleRegister f file store uuid resp cfg api now).store = store ∧
    (handleRegister f file store uuid resp cfg api now).mirror = none := by
  rw [handleRegister_validation_fail hval]
  exact ⟨rfl, rfl, rfl, rfl, rfl⟩

theorem validation_failure_no_side_effects_witness :
    (handleRegister badPhoneForm (some sampleFile) [] sampleUuid
        (.ok (some sampleImgBBData)) false (.ok ()) 1000).effects = [] ∧
    (handleRegister badPhoneForm (some sampleFile) [] sampleUuid
        (.ok (some sampleImgBBData)) false (.ok ()) 1000).response.status = 400 := by
  have h := validation_failure_no_side_effects badPhoneForm (some sampleFile) [] sampleUuid
    (.ok (some sampleImgBBData)) false (.ok ()) 1000 (by decide)
  exact ⟨h.2.2.1, h.2.1⟩

/-- C7: the lookup endpoint matches a supplied identifier against both
`ticketId` and `shortTicketId`; a match yields 200 with the record minus
exactly the `transactionScreenshotDeleteUrl` field (so both identifier
forms of one record yield the identical response), and no match yields the
404 not-found response rather than an error. -/
theorem lookup_by_either_id (store : List RegistrationDoc) (id : String) :
    (∀ r, findByEitherId store id = some r →
        r ∈ store ∧ (r.ticketId = id ∨ r.shortTicketId = id) ∧
        getRegistrationHandler store id = .found (stripDeleteUrl r) ∧
        (getRegistrationHandler store id).status = 200) ∧
    ((∀ r ∈ store, r.ticketId ≠ id ∧ r.shortTicketId ≠ id) →
        getRegistrationHandler store id = .notFound ∧
        (getRegistrationHandler store id).status = 404) ∧
    (∀ r ∈ store, (r.ticketId = id ∨ r.shortTicketId = id) →
        (∀ x ∈ store, (x.ticketId = id ∨ x.shortTicketId = id) → x = r) →
        getRegistrationHandler store id = .found (stripDeleteUrl r)) ∧
    (∀ r : RegistrationDoc,
        (stripDeleteUrl r).ticketId = r.ticketId ∧
        (stripDeleteUrl r).shortTicketId = r.shortTicketId ∧
        (stripDeleteUrl r).fullName = r.fullName ∧
        (stripDeleteUrl r).email = r.email ∧
        (stripDeleteUrl r).phone = r.phone ∧
        (stripDeleteUrl r).college = r.college ∧
        (stripDeleteUrl r).branch = r.branch ∧
        (stripDeleteUrl r).year = r.year ∧
        (stripDeleteUrl r).gender = r.gender ∧
        (stripDeleteUrl r).accommodation = r.accommodation ∧
        (stripDeleteUrl r).foodPreference = r.foodPreference ∧
        (stripDeleteUrl r).ieeeStatus = r.ieeeStatus ∧
        (stripDeleteUrl r).ieeeMembershipId = r.ieeeMembershipId ∧
        (stripDeleteUrl r).ticketType = r.ticketType ∧
        (stripDeleteUrl r).transactionScreenshotUrl = r.transactionScreenshotUrl ∧
        (stripDeleteUrl r).agreeToTerms = r.agreeToTerms ∧
        (stripDeleteUrl r).status = r.status ∧
        (stripDeleteUrl r).createdAt = r.createdAt ∧
        (stripDeleteUrl r).updatedAt = r.updatedAt) := by
  refine ⟨?_, ?_, ?_, ?_⟩
  · intro r hr
    have hmem := List.mem_of_find?_eq_some hr
    have hp := List.find?_some hr
    simp only [Bool.or_eq_true, beq_iff_eq] at hp
    refine ⟨hmem, hp, ?_, ?_⟩
    · unfold getRegistrationHandler
      rw [hr]
    · unfold getRegistrationHandler
      rw [hr]
      rfl
  · intro hno
    have hnone : findByEitherId store id = none := by
      unfold findByEitherId
      rw [List.find?_eq_none]
      intro x hx
      simp only [Bool.or_eq_true, beq_iff_eq, not_or]
      exact ⟨(hno x hx).1, (hno x hx).2⟩
    constructor
    · unfold getRegistrationHandler
      rw [hnone]
    · unfold getRegistrationHandler
      rw [hnone]
      rfl
  · intro r hr hid huniq
    have hfind : findByEitherId store id = some r := by
      unfold findByEitherId
      apply find?_eq_some_of_unique hr
      · simp only [Bool.or_eq_true, beq_iff_eq]
        exact hid
      · intro x hx hpx
        simp only [Bool.or_eq_true, beq_iff_eq] at hpx
        exact huniq x hx hpx
    unfold getRegistrationHandler
    rw [hfind]
  · intro r
    exact ⟨rfl, rfl, rfl, rfl, rfl, rfl, rfl, rfl, rfl, rfl, rfl, rfl, rfl, rfl, rfl, rfl,
      rfl, rfl, rfl⟩

theorem lookup_by_either_id_witness :
    getRegistrationHandler [sampleDoc] (generateShortTicketId sampleUuid)
      = .found (stripDeleteUrl sampleDoc) ∧
    getRegistrationHandler [sampleDoc] sampleUuid = .found (stripDeleteUrl sampleDoc) := by
  constructor
  · exact (lookup_by_either_id [sampleDoc] (generateShortTicketId sampleUuid)).2.2.1
      sampleDoc (by decide) (by decide) (by decide)
  · exact (lookup_by_either_id [sampleDoc] sampleUuid).2.2.1
      sampleDoc (by decide) (by decide) (by decide)

/-- C8: the sheet mirror is scheduled after persistence as the last effect,
its configuration and outcome have no influence on the response, store or
effect trace of the registration (the 201 success is returned regardless),
an unconfigured sink makes the mirror a silent no-op, and a failing append
is caught as a logged outcome, never an exception. -/
theorem sheet_mirror_isolated
    (f : Form) (file : Option File) (store : List RegistrationDoc) (uuid : String)
    (resp : Except String (Option ImgBBData)) (now : Nat) :
    (∀ cfg api cfg2 api2,
        (handleRegister f file store uuid resp cfg api now).response
          = (handleRegister f file store uuid resp cfg2 api2 now).response ∧
        (handleRegister f file store uuid resp cfg api now).store
          = (handleRegister f file store uuid resp cfg2 api2 now).store ∧
        (handleRegister f file store uuid resp cfg api now).effects
          = (handleRegister f file store uuid resp cfg2 api2 now).effects) ∧
    (∀ cfg api t sid em,
        (handleRegister f file store uuid resp cfg api now).response = .created t sid em →
        (handleRegister f file store uuid resp cfg api now).response.status = 201 ∧
        ∃ pre doc,
          (handleRegister f file store uuid resp cfg api now).effects
            = pre ++ [.insert doc, .scheduleSheetSync doc] ∧
          (handleRegister f file store uuid resp cfg api now).mirror
            = some (appendToGoogleSheets cfg api doc)) ∧
    (∀ api d, appendToGoogleSheets false api d = .skipped) ∧
    (∀ e d, appendToGoogleSheets true (.error e) d = .failedLogged e) := by
  refine ⟨?_, ?_, fun api d => rfl, fun e d => rfl⟩
  · intro cfg api cfg2 api2
    rcases hv : validateRegistration f file with _ | ⟨a, t⟩
    · rcases hfind : findOneByEmail store (jsToLower (f.email.getD "")) with _ | r
      · rcases hupl : uploadToImgBB resp with e | upl
        · rw [handleRegister_upload_error hv hfind hupl,
            handleRegister_upload_error hv hfind hupl]
          exact ⟨rfl, rfl, rfl⟩
        · rcases hsu : upl.success with _ | _
          · rw [handleRegister_upload_not_success hv hfind hupl hsu,
              handleRegister_upload_not_success hv hfind hupl hsu]
            exact ⟨rfl, rfl, rfl⟩
          · rcases hins : insertOne store
                (registrationDoc f uuid (generateShortTicketId uuid) upl now) with ns | _
            · rw [handleRegister_success hv hfind hupl hsu hins,
                handleRegister_success hv hfind hupl hsu hins]
              exact ⟨rfl, rfl, rfl⟩
            · rw [handleRegister_insert_dupkey hv hfind hupl hsu hins,
                handleRegister_insert_dupkey hv hfind hupl hsu hins]
              exact ⟨rfl, rfl, rfl⟩
      · rw [handleRegister_dup_email hv hfind, handleRegister_dup_email hv hfind]
        exact ⟨rfl, rfl, rfl⟩
    · rw [handleRegister_validation_fail (by rw [hv]; simp),
        handleRegister_validation_fail (by rw [hv]; simp)]
      exact ⟨rfl, rfl, rfl⟩
  · intro cfg api t sid em hresp
    rcases hv : validateRegistration f file with _ | ⟨a, t2⟩
    · rcases hfind : findOneByEmail store (jsToLower (f.email.getD "")) with _ | r
      · rcases hupl : uploadToImgBB resp with e | upl
        · rw [handleRegister_upload_error hv hfind hupl] at hresp
          simp at hresp
        · rcases hsu : upl.success with _ | _
          · rw [handleRegister_upload_not_success hv hfind hupl hsu] at hresp
            simp at hresp
          · rcases hins : insertOne store
                (registrationDoc f uuid (generateShortTicketId uuid) upl now) with ns | _
            · rw [handleRegister_success hv hfind hupl hsu hins]
              refine ⟨rfl,
                [.findByEmail (jsToLower (f.email.getD "")),
                 .genTicketId uuid,
                 .imgbbUpload ("transaction_" ++ generateShortTicketId uuid ++ "_"
                   ++ toString now)],
                registrationDoc f uuid (generateShortTicketId uuid) upl now, rfl, rfl⟩
            · rw [handleRegister_insert_dupkey hv hfind hupl hsu hins] at hresp
              simp at hresp
      · rw [handleRegister_dup_email hv hfind] at hresp
        simp at hresp
    · rw [handleRegister_validation_fail (by rw [hv]; simp)] at hresp
      simp at hresp

theorem sheet_mirror_isolated_witness :
    appendToGoogleSheets false (.ok ()) sampleDoc = .skipped ∧
    appendToGoogleSheets true (.error "quota exceeded") sampleDoc
      = .failedLogged "quota exceeded" ∧
    (handleRegister sampleForm (some sampleFile) [] sampleUuid
        (.ok (some sampleImgBBData)) false (.ok ()) 1000).response.status = 201 := by
  refine ⟨(sheet_mirror_isolated sampleForm (some sampleFile) [] sampleUuid
      (.ok (some sampleImgBBData)) 1000).2.2.1 (.ok ()) sampleDoc,
    (sheet_mirror_isolated sampleForm (some sampleFile) [] sampleUuid
      (.ok (some sampleImgBBData)) 1000).2.2.2 "quota exceeded" sampleDoc,
    ((sheet_mirror_isolated sampleForm (some sampleFile) [] sampleUuid
      (.ok (some sampleImgBBData)) 1000).2.1 false (.ok ()) sampleUuid
      (generateShortTicketId sampleUuid) (jsTrim (jsToLower "Jane@X.com"))
      (by decide)).1⟩

/-- C9: the row handed to the sheet append is exactly these 17 values in
this fixed order, with `ieeeMembershipId` replaced by the empty string when
null and `createdAt` serialized by the ISO-8601 formatter. -/
theorem sheet_row_fixed_order (d : RegistrationDoc) :
    appendToGoogleSheets true (.ok ()) d =
      .appended
        [d.ticketId, d.shortTicketId, d.fullName, d.email, d.phone, d.college, d.branch,
         d.year, d.gender, d.accommodation, d.foodPreference, d.ieeeStatus,
         d.ieeeMembershipId.getD "", d.ticketType, d.transactionScreenshotUrl, d.status,
         toISOString d.createdAt] ∧
    (sheetRow d).length = 17 :=
  ⟨rfl, rfl⟩

/-- C10: every record the registration endpoint hands to the store's insert
has `status = "pending"`, `agreeToTerms = true`, and `createdAt` and
`updatedAt` both equal to the handling-time clock value. -/
theorem inserted_record_initial_state
    (f : Form) (file : Option File) (store : List RegistrationDoc) (uuid : String)
    (resp : Except String (Option ImgBBData)) (cfg : Bool) (api : Except String Unit)
    (now : Nat) (d : RegistrationDoc)
    (hins : Effect.insert d ∈ (handleRegister f file store uuid resp cfg api now).effects) :
    d.status = "pending" ∧ d.agreeToTerms = true ∧ d.createdAt = now ∧ d.updatedAt = now := by
  obtain ⟨hval, -, upl, -, -, hd⟩ := insert_effect_characterization hins
  subst hd
  refine ⟨rfl, ?_, rfl, rfl⟩
  have hok := (validate_nil_parts hval).2.2.2.2.2.2.2.2.2.2.2.2.1
  rw [agreeToTermsOkB] at hok
  rcases of_decide_eq_true hok with h | h
  · simp [registrationDoc, h]
  · simp [registrationDoc, h]

theorem inserted_record_initial_state_witness :
    (registrationDoc sampleForm sampleUuid (generateShortTicketId sampleUuid)
        sampleUploadResult 1000).status = "pending" ∧
    (registrationDoc sampleForm sampleUuid (generateShortTicketId sampleUuid)
        sampleUploadResult 1000).agreeToTerms = true := by
  have h := inserted_record_initial_state sampleForm (some sampleFile) [] sampleUuid
    (.ok (some sampleImgBBData)) false (.ok ()) 1000
    (registrationDoc sampleForm sampleUuid (generateShortTicketId sampleUuid)
      sampleUploadResult 1000)
    (by decide)
  exact ⟨h.1, h.2.1⟩

end THM
